import Mathlib

/-!
Verification of the computational core of `jwst_rogue_path_tool/plotting.py`:
the angular-annulus catalog filter (`locate_targets_in_annulus`), the
instrument-frame to sky-frame polygon projection
(`get_susceptibility_region_patch`), and the exposure/observation level
angle-wedge aggregation (the wedge loops of `create_exposure_plots` and
`create_observation_plot`).

Numbers are modelled as rationals.  External collaborators (astropy's
`SkyCoord.separation`, pysiaf's `rotations.tel_to_sky`) are parameters:
the properties checked here depend only on how their outputs are consumed.
-/

/-- A catalog row: one row of the pandas DataFrame, with columns `ra`, `dec`
(degrees) plus arbitrary additional fields (`extra`). -/
structure CatalogRow (α : Type) where
  ra : ℚ
  dec : ℚ
  extra : α
deriving Repr, DecidableEq

/-- `locate_targets_in_annulus(catalog, ra, dec, inner_radius, outer_radius)`
from plotting.py.  `sep ra dec r.ra r.dec` stands for the great-circle
separation in degrees computed by astropy
(`target_coordinates.separation(catalog_coordinates).deg`, an external
collaborator).  The mask is the source's
`(separation.deg < outer_radius) & (separation.deg > inner_radius)`,
and the result is `catalog[mask]`. -/
def locate_targets_in_annulus {α : Type} (sep : ℚ → ℚ → ℚ → ℚ → ℚ)
    (catalog : List (CatalogRow α)) (ra dec inner_radius outer_radius : ℚ) :
    List (CatalogRow α) :=
  catalog.filter fun row =>
    decide (sep ra dec row.ra row.dec < outer_radius) &&
    decide (sep ra dec row.ra row.dec > inner_radius)

/-- A matplotlib `Path`: a vertex array together with its codes array
(move-to / line-to / close-poly markers delimiting sub-paths). -/
structure MplPath where
  vertices : List (ℚ × ℚ)
  codes : List ℕ
deriving Repr, DecidableEq

/-- The exact rational value of the IEEE-754 double `np.pi`. -/
def np_pi : ℚ := 884279719003555 / 281474976710656

/-- The body of the loop in `get_susceptibility_region_patch` for one module:
scale the stored vertex coordinates by 3600 (degrees to arcseconds), apply
the attitude transform `tel_to_sky` (pysiaf, external, applied per vertex)
giving (ra, dec) in radians, convert to degrees with `* 180.0 / np.pi`, and
rebuild a path from the new vertices with the original codes. -/
def project_V2V3path (tel_to_sky : ℚ → ℚ → ℚ × ℚ) (V2V3path : MplPath) :
    MplPath :=
  let v2 := V2V3path.vertices.map fun p => 3600 * p.1
  let v3 := V2V3path.vertices.map fun p => 3600 * p.2
  let sky := (v2.zip v3).map fun q => tel_to_sky q.1 q.2
  let ra_deg := sky.map fun q => q.1 * 180 / np_pi
  let dec_deg := sky.map fun q => q.2 * 180 / np_pi
  { vertices := ra_deg.zip dec_deg, codes := V2V3path.codes }

/-- `get_susceptibility_region_patch(exposure_frames, exposure_id)`:
for each named module of the susceptibility region, project its `V2V3path`
to sky coordinates under the current attitude. -/
def get_susceptibility_region_patch (tel_to_sky : ℚ → ℚ → ℚ × ℚ)
    (region : List (String × MplPath)) : List MplPath :=
  region.map fun module => project_V2V3path tel_to_sky module.2

/-- The per-vertex composition the source applies: scale by 3600, transform,
then multiply each coordinate by `180 / np.pi`. -/
def sky_vertex (tel_to_sky : ℚ → ℚ → ℚ × ℚ) (v : ℚ × ℚ) : ℚ × ℚ :=
  ((tel_to_sky (3600 * v.1) (3600 * v.2)).1 * 180 / np_pi,
   (tel_to_sky (3600 * v.1) (3600 * v.2)).2 * 180 / np_pi)

/-- The wedge loop of `create_exposure_plots`:
`for angles in zip(angle_start, angle_end)` emits the wedge
`(min(angles), max(angles))`. -/
def exposure_wedges (angle_start angle_end : List ℚ) : List (ℚ × ℚ) :=
  (angle_start.zip angle_end).map fun angles =>
    (min angles.1 angles.2, max angles.1 angles.2)

/-- `np.unique(np.concatenate(angle_lists))`: flatten, sort ascending,
remove duplicates. -/
def np_unique_concatenate (angle_lists : List (List ℚ)) : List ℚ :=
  (List.insertionSort (· ≤ ·) angle_lists.flatten).dedup

/-- The wedge loop of `create_observation_plot`:
`all_starting_angles` / `all_ending_angles` are the per-exposure angle lists
passed through `np.unique(np.concatenate(...))`, then
`for angles in zip(all_starting_angles, all_ending_angles)` emits the wedge
`(min(angles), max(angles))`. -/
def observation_wedges (all_starts all_ends : List (List ℚ)) : List (ℚ × ℚ) :=
  ((np_unique_concatenate all_starts).zip (np_unique_concatenate all_ends)).map
    fun angles => (min angles.1 angles.2, max angles.1 angles.2)

/-- The projected path is the original path with each vertex replaced by its
image under `sky_vertex` and the codes kept. -/
lemma project_V2V3path_eq (tel_to_sky : ℚ → ℚ → ℚ × ℚ) (p : MplPath) :
    project_V2V3path tel_to_sky p
      = { vertices := p.vertices.map (sky_vertex tel_to_sky),
          codes := p.codes } := by
  simp [project_V2V3path, sky_vertex, List.zip_map', List.map_map, Function.comp]

/-- Pointwise description of the zip/min/max wedge construction. -/
lemma zip_min_max_getElem? : ∀ (s e : List ℚ) (i : ℕ),
    ((s.zip e).map fun a => (min a.1 a.2, max a.1 a.2))[i]?
      = (s[i]?).bind fun a => (e[i]?).map fun b => (min a b, max a b)
  | [], _, _ => by simp
  | a :: s, [], i => by cases h : (a :: s)[i]? <;> simp [h]
  | a :: s, b :: e, 0 => by simp
  | a :: s, b :: e, (i + 1) => by simpa using zip_min_max_getElem? s e i

/-- The output of `np.unique` is sorted ascending. -/
lemma np_unique_concatenate_sorted (angle_lists : List (List ℚ)) :
    (np_unique_concatenate angle_lists).Sorted (· ≤ ·) :=
  List.Pairwise.sublist (List.dedup_sublist _)
    (List.sorted_insertionSort _ angle_lists.flatten)

/-- Membership in the output of `np.unique(np.concatenate(...))` is
membership in any of the input lists. -/
lemma np_unique_concatenate_mem (angle_lists : List (List ℚ)) (a : ℚ) :
    a ∈ np_unique_concatenate angle_lists ↔ a ∈ angle_lists.flatten := by
  unfold np_unique_concatenate
  rw [List.mem_dedup]
  exact (List.perm_insertionSort _ _).mem_iff

/-- Claim C1: a row of the catalog is in the result of
`locate_targets_in_annulus` if and only if its separation from the reference
position is strictly between the inner and outer radii; both bounds are
exclusive, and rows failing the predicate are exactly the ones excluded. -/
theorem annulus_filter_membership {α : Type} (sep : ℚ → ℚ → ℚ → ℚ → ℚ)
    (catalog : List (CatalogRow α)) (ra dec inner_radius outer_radius : ℚ)
    (row : CatalogRow α) :
    row ∈ locate_targets_in_annulus sep catalog ra dec inner_radius outer_radius
      ↔ row ∈ catalog ∧ inner_radius < sep ra dec row.ra row.dec
          ∧ sep ra dec row.ra row.dec < outer_radius := by
  simp only [locate_targets_in_annulus, List.mem_filter, Bool.and_eq_true,
    decide_eq_true_eq, gt_iff_lt]
  tauto

/-- Claim C2: for every sub-region, the sky projection is exactly the
composition: multiply each stored (v2, v3) vertex coordinate by 3600, apply
the attitude transform, then multiply each resulting coordinate by
`180 / np.pi`. -/
theorem susceptibility_patch_composition (tel_to_sky : ℚ → ℚ → ℚ × ℚ)
    (region : List (String × MplPath)) :
    get_susceptibility_region_patch tel_to_sky region
      = region.map fun module =>
          { vertices := module.2.vertices.map fun v =>
              ((tel_to_sky (3600 * v.1) (3600 * v.2)).1 * 180 / np_pi,
               (tel_to_sky (3600 * v.1) (3600 * v.2)).2 * 180 / np_pi),
            codes := module.2.codes } := by
  simp only [get_susceptibility_region_patch, project_V2V3path_eq]
  rfl

/-- Claim C3: the exposure-level wedge set is exactly
`(min(start_i, end_i), max(start_i, end_i))` for each pair `i`, with no
merging, deduplication, or splitting of wedges that cross 0 degrees; in
particular `starts=[10, 350], ends=[20, 5]` yields `(10, 20)` and
`(5, 350)`. -/
theorem exposure_wedges_spec :
    (∀ (angle_start angle_end : List ℚ) (i : ℕ),
        (exposure_wedges angle_start angle_end)[i]?
          = (angle_start[i]?).bind fun a =>
              (angle_end[i]?).map fun b => (min a b, max a b)) ∧
    (∀ angle_start angle_end : List ℚ,
        (exposure_wedges angle_start angle_end).length
          = min angle_start.length angle_end.length) ∧
    exposure_wedges [10, 350] [20, 5] = [(10, 20), (5, 350)] := by
  refine ⟨fun s e i => zip_min_max_getElem? s e i, fun s e => ?_, by decide⟩
  simp [exposure_wedges]

/-- Claim C4, counterexample: for exposures with starts `[0,90]` and
`[90,180]`, the deduplicated union of start angles contains 180, so it is
not the set `{0, 90}` stated by the claim. -/
theorem observation_unique_starts_counterexample :
    (180 : ℚ) ∈ np_unique_concatenate [[0, 90], [90, 180]] ∧
    (180 : ℚ) ∉ ([0, 90] : List ℚ) := by decide

/-- Claim C4, amended: the observation level takes the deduplicated union of
all start angles and, separately, of all end angles, discarding the original
pairing; for starts `[0,90]`/`[90,180]` and ends `[45,135]`/`[135,225]` the
unique start set is `{0, 90, 180}` and the unique end set is
`{45, 135, 225}`. -/
theorem observation_unique_angles_spec :
    (∀ (angle_lists : List (List ℚ)) (a : ℚ),
        a ∈ np_unique_concatenate angle_lists ↔ a ∈ angle_lists.flatten) ∧
    (∀ angle_lists : List (List ℚ), (np_unique_concatenate angle_lists).Nodup) ∧
    np_unique_concatenate [[0, 90], [90, 180]] = [0, 90, 180] ∧
    np_unique_concatenate [[45, 135], [135, 225]] = [45, 135, 225] :=
  ⟨np_unique_concatenate_mem, fun _ => List.nodup_dedup _, by decide, by decide⟩

/-- Claim C5, counterexample: consuming an exposure whose start and end
angle sequences have different lengths (starts `[10, 20]`, ends `[30]`) does
not fail: `zip` silently truncates and one wedge `(10, 30)` is produced. -/
theorem mismatched_angles_no_error :
    exposure_wedges [10, 20] [30] = [(10, 30)] := by decide

/-- Claim C5, amended: mismatched start/end angle sequences raise no error
at either consumption site; `zip` truncates the pairing to the shorter
sequence, producing `min(len(starts), len(ends))` wedges. -/
theorem mismatched_angles_truncation :
    (∀ angle_start angle_end : List ℚ,
        (exposure_wedges angle_start angle_end).length
          = min angle_start.length angle_end.length) ∧
    (∀ all_starts all_ends : List (List ℚ),
        (observation_wedges all_starts all_ends).length
          = min (np_unique_concatenate all_starts).length
              (np_unique_concatenate all_ends).length) := by
  constructor
  · intro s e; simp [exposure_wedges]
  · intro s e; simp [observation_wedges]

/-- Claim C6: projection preserves the number of sub-regions, each
sub-region's codes sequence exactly, and its vertex count; vertex `j` of the
output is the image of vertex `j` of the input under the per-vertex
transform, so no vertex is interpolated, resampled, or dropped. -/
theorem projection_preserves_topology (tel_to_sky : ℚ → ℚ → ℚ × ℚ)
    (region : List (String × MplPath)) (path : MplPath) :
    (get_susceptibility_region_patch tel_to_sky region).length = region.length ∧
    (project_V2V3path tel_to_sky path).codes = path.codes ∧
    (project_V2V3path tel_to_sky path).vertices.length = path.vertices.length ∧
    ∀ j : ℕ, (project_V2V3path tel_to_sky path).vertices[j]?
        = (path.vertices[j]?).map (sky_vertex tel_to_sky) := by
  refine ⟨?_, ?_, ?_, ?_⟩
  · simp [get_susceptibility_region_patch]
  · rw [project_V2V3path_eq]
  · rw [project_V2V3path_eq]; simp
  · intro j; rw [project_V2V3path_eq]; simp

/-- Claim C7: the filtered catalog is a sublist of the input catalog: rows
keep their identity (all fields unchanged), their relative order, and no row
is duplicated. -/
theorem annulus_filter_sublist {α : Type} (sep : ℚ → ℚ → ℚ → ℚ → ℚ)
    (catalog : List (CatalogRow α)) (ra dec inner_radius outer_radius : ℚ) :
    (locate_targets_in_annulus sep catalog ra dec inner_radius
        outer_radius).Sublist catalog :=
  List.filter_sublist catalog

/-- Claim C8: the filter is total; with `inner_radius >= outer_radius` the
result is empty (no row can satisfy both strict bounds), and an empty
catalog yields an empty result. -/
theorem annulus_filter_degenerate_bounds {α : Type} (sep : ℚ → ℚ → ℚ → ℚ → ℚ)
    (catalog : List (CatalogRow α)) (ra dec inner_radius outer_radius : ℚ)
    (h : outer_radius ≤ inner_radius) :
    locate_targets_in_annulus sep catalog ra dec inner_radius outer_radius = []
      ∧ locate_targets_in_annulus sep ([] : List (CatalogRow α)) ra dec
          inner_radius outer_radius = [] := by
  refine ⟨List.filter_eq_nil_iff.mpr fun row _ => ?_, rfl⟩
  simp only [Bool.and_eq_true, decide_eq_true_eq, gt_iff_lt, not_and]
  intro h1 h2
  linarith

/-- Claim C8, witness: concrete instance with `inner_radius = 2`,
`outer_radius = 1` and a one-row catalog. -/
theorem annulus_filter_degenerate_bounds_witness :
    locate_targets_in_annulus (fun _ _ _ _ => 0)
        ([⟨0, 0, ()⟩] : List (CatalogRow Unit)) 0 0 2 1 = [] ∧
    locate_targets_in_annulus (fun _ _ _ _ => 0)
        ([] : List (CatalogRow Unit)) 0 0 2 1 = [] :=
  annulus_filter_degenerate_bounds (fun _ _ _ _ => 0) [⟨0, 0, ()⟩] 0 0 2 1
    (by norm_num)

/-- Claim C9: the annulus filter is idempotent: filtering an already
filtered catalog with the same reference position and bounds returns it
unchanged. -/
theorem annulus_filter_idempotent {α : Type} (sep : ℚ → ℚ → ℚ → ℚ → ℚ)
    (catalog : List (CatalogRow α)) (ra dec inner_radius outer_radius : ℚ) :
    locate_targets_in_annulus sep
        (locate_targets_in_annulus sep catalog ra dec inner_radius outer_radius)
        ra dec inner_radius outer_radius
      = locate_targets_in_annulus sep catalog ra dec inner_radius outer_radius := by
  simp only [locate_targets_in_annulus, List.filter_filter, Bool.and_self]

/-- Claim C10: the observation-level unique start and end angle sequences
are each sorted ascending and duplicate-free, and the wedges pair them
positionally: exactly `min` of the two lengths wedges are produced, the
excess of the longer sequence silently dropped. -/
theorem observation_wedges_spec (all_starts all_ends : List (List ℚ)) :
    (np_unique_concatenate all_starts).Sorted (· ≤ ·) ∧
    (np_unique_concatenate all_starts).Nodup ∧
    (np_unique_concatenate all_ends).Sorted (· ≤ ·) ∧
    (np_unique_concatenate all_ends).Nodup ∧
    (observation_wedges all_starts all_ends).length
      = min (np_unique_concatenate all_starts).length
          (np_unique_concatenate all_ends).length ∧
    ∀ i : ℕ, (observation_wedges all_starts all_ends)[i]?
        = ((np_unique_concatenate all_starts)[i]?).bind fun a =>
            ((np_unique_concatenate all_ends)[i]?).map fun b =>
              (min a b, max a b) := by
  refine ⟨np_unique_concatenate_sorted _, List.nodup_dedup _,
    np_unique_concatenate_sorted _, List.nodup_dedup _, ?_, fun i => ?_⟩
  · simp [observation_wedges]
  · exact zip_min_max_getElem? _ _ i
